import Mathlib

/-!
Shallow embedding of the prowlgo client (package prowlgo): the
credential / rate-limit state machine and the request-construction /
response-interpretation protocol. Go strings are modelled as Lean
strings (lengths as character counts), `time.Time` as an integer of
epoch seconds, the Go map `apiKeys map[string]bool` as a duplicate-free
list in insertion order, and the network as an explicit
`RemoteResponse` value describing what one HTTP exchange would yield
(transport failure, or a body — unreadable, undecodable, or a parsed
`Response` document — together with the outcome of the deferred
`resp.Body.Close()`).
-/

namespace Prowlgo

/-- `strings.TrimSpace` on the left: drop leading whitespace. -/
def trimLeftChars (l : List Char) : List Char := l.dropWhile Char.isWhitespace

/-- `strings.TrimSpace` on the right: drop trailing whitespace. -/
def trimRightChars (l : List Char) : List Char :=
  (l.reverse.dropWhile Char.isWhitespace).reverse

/-- `strings.TrimSpace`: drop leading and trailing whitespace. -/
def trimSpace (s : String) : String := ⟨trimRightChars (trimLeftChars s.data)⟩

/-- The Go slice `s[0:n]`. -/
def takeStr (s : String) (n : Nat) : String := ⟨s.data.take n⟩

/-- `defaultToProwlLabel` constant of the source. -/
def defaultToProwlLabel : String := "(copied to prowl)"

/-- The `Config` struct. The `Logger` pointer is modelled by the flag
`loggerSet` (`true` iff the pointer is non-nil) and the `ToProwlLabel`
pointer by an `Option`. -/
structure Config where
  apiKeys : List String
  providerKey : String
  token : String
  application : String
  loggerSet : Bool
  toProwlLabel : Option String
deriving DecidableEq

/-- The `error` element of a parsed response (`XMLName.Local` nonempty is
modelled by the element being present at all). -/
structure ErrorElem where
  code : Int
  message : String
deriving DecidableEq

/-- The `success` element of a parsed response. -/
structure SuccessElem where
  code : Int
  remaining : Int
  resetdate : Int
deriving DecidableEq

/-- The `retrieve` element of a parsed response. Absent attributes are
the empty string, as with Go XML unmarshalling. -/
structure RetrieveElem where
  apiKey : String
  token : String
  url : String
deriving DecidableEq

/-- The `Response` struct after successful `xml.Unmarshal`: each child
element either occurred (`some`) or did not (`none`). -/
structure ParsedResponse where
  errorElem : Option ErrorElem
  successElem : Option SuccessElem
  retrieve : RetrieveElem
deriving DecidableEq

/-- What one network exchange yields, covering the failure points of
`handleResponse`: the HTTP call itself failed (the deferred body close
is then never registered), or a body was obtained — unreadable,
undecodable, or parsed into a document — in which case the deferred
`resp.Body.Close()` either succeeded (`none`) or failed with a message
(`some`). -/
inductive RemoteResponse where
  | transportError (msg : String)
  | readError (msg : String) (closeErr : Option String)
  | decodeError (msg : String) (closeErr : Option String)
  | ok (resp : ParsedResponse) (closeErr : Option String)
deriving DecidableEq

/-- The `Client` struct. `apiKeys` is the internal key set (a
duplicate-free list in insertion order), `remaining`/`reset` the
rate-limit bookkeeping. -/
structure Client where
  config : Config
  apiKeys : List String
  apiKeysDirty : Bool
  unauthorized : Bool
  remaining : Int
  reset : Int
deriving DecidableEq

/-- The key-set construction loop of `NewClient`: reject any key whose
length is not 40, insert unseen keys in order. -/
def addKeys : List String → List String → Except String (List String)
  | acc, [] => Except.ok acc
  | acc, key :: rest =>
    if key.length ≠ 40 then
      Except.error "api key must either be 40 chars long or undefined"
    else
      addKeys (if acc.contains key then acc else acc ++ [key]) rest

/-- `NewClient`. `now` stands for `time.Now()`. -/
def NewClient (config : Config) (now : Int) : Except String Client :=
  if config.providerKey.length ≠ 40 ∧ config.providerKey.length ≠ 0 then
    Except.error "provider key must either be 40 chars long or undefined"
  else if config.token.length ≠ 40 ∧ config.token.length ≠ 0 then
    Except.error "token must either be 40 chars long or undefined"
  else if config.application.length > 256 then
    Except.error "application must not exceed 256 chars in length"
  else
    match addKeys [] config.apiKeys with
    | Except.error e => Except.error e
    | Except.ok keys =>
      Except.ok
        { config :=
            { config with
              loggerSet := true
              toProwlLabel := some (config.toProwlLabel.getD defaultToProwlLabel) }
          apiKeys := keys
          apiKeysDirty := keys.length ≠ config.apiKeys.length
          unauthorized := false
          remaining := 1000
          reset := now }

/-- The deferred `resp.Body.Close()` handler of `handleResponse`: it
runs at function exit, after the branch outcomes below; when the close
fails, a call that was about to succeed returns the close error instead,
and a call that was already failing gets the close error appended. -/
def closeWrap (r : Except String ParsedResponse) (closeErr : Option String) :
    Except String ParsedResponse :=
  match closeErr with
  | none => r
  | some c =>
    match r with
    | Except.ok _ => Except.error ("error closing HTTP response body: " ++ c)
    | Except.error msg =>
      Except.error (msg ++ ". Followed by: error closing HTTP response body: " ++ c)

/-- `Client.handleResponse`: wrap transport/read/decode failures; on an
error element set the sticky flag when the code is 401 (for every
caller) and return an error; otherwise, on a success element, refresh
the rate-limit bookkeeping. The deferred body close applies `closeWrap`
to the returned error of every branch reached after the transport check;
in particular a close failure after a clean parse with a success element
turns the call into an error return although the bookkeeping was already
refreshed. -/
def handleResponse (clt : Client) (world : RemoteResponse) :
    Client × Except String ParsedResponse :=
  match world with
  | RemoteResponse.transportError m =>
    (clt, Except.error ("HTTP request to prowl server failed: " ++ m))
  | RemoteResponse.readError m closeErr =>
    (clt, closeWrap (Except.error ("cant read HTTP response body: " ++ m)) closeErr)
  | RemoteResponse.decodeError m closeErr =>
    (clt, closeWrap (Except.error ("cant unmarshal xml response from prowl server: " ++ m)) closeErr)
  | RemoteResponse.ok resp closeErr =>
    match resp.errorElem with
    | some e =>
      (if e.code = 401 then { clt with unauthorized := true } else clt,
        closeWrap
          (Except.error ("prowl returned error code " ++ toString e.code ++ ": " ++ e.message))
          closeErr)
    | none =>
      match resp.successElem with
      | some s =>
        ({ clt with reset := s.resetdate, remaining := s.remaining },
          closeWrap (Except.ok resp) closeErr)
      | none => (clt, closeWrap (Except.ok resp) closeErr)

/-- The comma-joining loop of `makeAPIKeyRequestArgument`: iterate the
key set, but compare the running index against `n - 1` where `n` is the
length of the configured key list (not of the set), as the source does. -/
def joinKeys : List String → Int → Int → String
  | [], _, _ => ""
  | key :: rest, i, n => key ++ (if i < n - 1 then "," else "") ++ joinKeys rest (i + 1) n

/-- `Client.makeAPIKeyRequestArgument`. -/
def makeAPIKeyRequestArgument (clt : Client) : String :=
  joinKeys clt.apiKeys 0 (clt.config.apiKeys.length : Int)

/-- The body/URL composition step of `AddWithURL` (lines 223-228 of the
source), applied to the already-trimmed description and URL: when a URL
is present and the combined length would exceed 10000, truncate the
description to `10000 - len(url) - 4` characters, trim it again and
append `"..."`; then append a space and the URL. -/
def composeDescription (description withURL : String) : String :=
  if 0 < withURL.length then
    (if 10000 < description.length + withURL.length + 4 then
      trimSpace (takeStr description (10000 - withURL.length - 4)) ++ "..."
    else description) ++ " " ++ withURL
  else description

/-- The form values POSTed to the add endpoint. -/
structure AddRequest where
  apikey : String
  providerkey : String
  priority : Int
  application : String
  event : String
  description : String
  url : String
deriving DecidableEq

/-- Outcome of `AddWithURL`: final client state, the returned remaining
count, the returned error (if any), and the POST that went out on the
wire (`none` when no network request was issued). -/
structure AddResult where
  clt : Client
  remaining : Int
  error : Option String
  request : Option AddRequest
deriving DecidableEq

/-- The POST that `AddWithURL` sends once all local checks passed:
trimmed event, composed description, trimmed URL, the comma-joined key
set, provider key, priority and application from the configuration. -/
def builtRequest (clt : Client) (priority : Int) (event description withURL : String) :
    AddRequest :=
  ⟨makeAPIKeyRequestArgument clt, clt.config.providerKey, priority, clt.config.application,
    trimSpace event, composeDescription (trimSpace description) (trimSpace withURL),
    trimSpace withURL⟩

/-- `Client.AddWithURL`. `now` stands for `time.Now()` at the rate-limit
check, `world` for what the network exchange would yield. -/
def AddWithURL (clt : Client) (priority : Int) (event description withURL : String)
    (now : Int) (world : RemoteResponse) : AddResult :=
  if clt.unauthorized then
    ⟨clt, clt.remaining, some "the api key is know to be invalid", none⟩
  else if clt.config.apiKeys.length = 0 then
    ⟨clt, clt.remaining, some "a valid api key is required for add operation", none⟩
  else if priority < -2 ∨ priority > 2 then
    ⟨clt, clt.remaining, some "priority argument must be in the range -2..2", none⟩
  else if event.length > 1024 then
    ⟨clt, clt.remaining, some "event argument must not exceed 1024 chars", none⟩
  else if description.length > 10000 then
    ⟨clt, clt.remaining, some "description argument must not exceed 10000 chars", none⟩
  else if withURL.length > 256 then
    ⟨clt, clt.remaining, some "withURL argument must not exceed 512 chars", none⟩
  else if clt.remaining ≤ 0 ∧ now < clt.reset then
    ⟨clt, clt.remaining, some "api requests spent", none⟩
  else
    let req : AddRequest := builtRequest clt priority event description withURL
    let hr := handleResponse clt world
    match hr.2 with
    | Except.error e =>
      ⟨hr.1, hr.1.remaining, some ("add request to prowl server failed: " ++ e), some req⟩
    | Except.ok response =>
      match response.successElem with
      | some s =>
        ⟨{ hr.1 with reset := s.resetdate, remaining := s.remaining }, s.remaining, none, some req⟩
      | none => ⟨hr.1, hr.1.remaining, none, some req⟩

/-- `Client.Add` delegates to `AddWithURL` with an empty URL. -/
def Add (clt : Client) (priority : Int) (event description : String)
    (now : Int) (world : RemoteResponse) : AddResult :=
  AddWithURL clt priority event description "" now world

/-- Outcome of `Verify`: final client state, returned remaining count,
returned error, and whether a network request was issued. -/
structure VerifyResult where
  clt : Client
  remaining : Int
  error : Option String
  networkCalled : Bool
deriving DecidableEq

/-- `Client.Verify`. -/
def Verify (clt : Client) (apiKey : String) (world : RemoteResponse) : VerifyResult :=
  if apiKey.length ≠ 40 then
    ⟨clt, clt.remaining, some "apiKey argument must be exactly 40 chars long", false⟩
  else
    let hr := handleResponse clt world
    match hr.2 with
    | Except.error e =>
      ⟨hr.1, hr.1.remaining, some ("verify request to prowl server failed: " ++ e), true⟩
    | Except.ok _ => ⟨hr.1, hr.1.remaining, none, true⟩

/-- Outcome of `RetrieveToken`. -/
structure RetrieveTokenResult where
  clt : Client
  approveURL : String
  error : Option String
deriving DecidableEq

/-- `Client.RetrieveToken`. -/
def RetrieveToken (clt : Client) (world : RemoteResponse) : RetrieveTokenResult :=
  if clt.config.providerKey.length ≠ 40 then
    ⟨clt, "", some "provider key is required for retrieve token operation"⟩
  else
    let hr := handleResponse clt world
    match hr.2 with
    | Except.error e =>
      ⟨hr.1, "", some ("retrieve token request to prowl server failed: " ++ e)⟩
    | Except.ok resp =>
      ⟨{ hr.1 with config := { hr.1.config with token := resp.retrieve.token } },
        resp.retrieve.url, none⟩

/-- Outcome of `RetrieveAPIKey`. -/
structure RetrieveAPIKeyResult where
  clt : Client
  apiKey : String
  error : Option String
deriving DecidableEq

/-- `Client.RetrieveAPIKey`. On success the source executes
`clt.apiKeys[apiKey] = true` where `apiKey` is the named return value,
which still holds its zero value `""` at that point; the embedding
reproduces this: the empty string is inserted into the key set, and the
retrieved key is only returned. -/
def RetrieveAPIKey (clt : Client) (world : RemoteResponse) : RetrieveAPIKeyResult :=
  if clt.config.token.length ≠ 40 then
    ⟨clt, "", some "token is required for retrieve token operation"⟩
  else if clt.config.providerKey.length ≠ 40 then
    ⟨clt, "", some "provider key is required for retrieve token operation"⟩
  else
    let hr := handleResponse clt world
    match hr.2 with
    | Except.error e =>
      ⟨hr.1, "", some ("retrieve api key request to prowl server failed: " ++ e)⟩
    | Except.ok resp =>
      ⟨{ hr.1 with
          apiKeys := if hr.1.apiKeys.contains "" then hr.1.apiKeys else hr.1.apiKeys ++ [""] },
        resp.retrieve.apiKey, none⟩

/-- Alias for `Config` usable inside the `Client` namespace. -/
abbrev ConfigT := Config

/-- The `Client.Config` getter: rebuild the configured key list from the
key set when dirty, clear the dirty flag, and return the configuration.
The returned pair is (updated client, returned configuration). -/
def Client.Config (clt : Client) : Client × ConfigT :=
  if clt.apiKeysDirty then
    ({ clt with config := { clt.config with apiKeys := clt.apiKeys }, apiKeysDirty := false },
      { clt.config with apiKeys := clt.apiKeys })
  else
    ({ clt with apiKeysDirty := false }, clt.config)

/-- Does the exchange carry a structured error element with code 401? -/
def is401 : RemoteResponse → Bool
  | RemoteResponse.ok resp _ =>
    match resp.errorElem with
    | some e => e.code = 401
    | none => false
  | _ => false

/-- Did this exchange parse cleanly with a success element and then fail
only in the deferred body close? This is the one path on which the
bookkeeping has been refreshed although an error is returned. -/
def closeFailAfterSuccess : RemoteResponse → Bool
  | RemoteResponse.ok resp (some _) =>
    match resp.errorElem, resp.successElem with
    | none, some _ => true
    | _, _ => false
  | _ => false

/-! Concrete fixtures used by counterexamples and witnesses. -/

/-- A 40-character device key. -/
def keyA : String := ⟨List.replicate 40 'a'⟩

/-- Another 40-character device key. -/
def keyB : String := ⟨List.replicate 40 'b'⟩

/-- A 40-character provider key. -/
def keyP : String := ⟨List.replicate 40 'p'⟩

/-- A 40-character token. -/
def keyT : String := ⟨List.replicate 40 't'⟩

/-- An empty configuration. -/
def cfg0 : Config := ⟨[], "", "", "", false, none⟩

/-- The client `NewClient cfg0 0` yields. -/
def c0 : Client :=
  ⟨⟨[], "", "", "", true, some defaultToProwlLabel⟩, [], false, false, 1000, 0⟩

/-- A configuration with provider key and token only. -/
def cfgPT : Config := ⟨[], keyP, keyT, "", false, none⟩

/-- The client `NewClient cfgPT 0` yields. -/
def cPT : Client :=
  ⟨⟨[], keyP, keyT, "", true, some defaultToProwlLabel⟩, [], false, false, 1000, 0⟩

/-- A configuration listing the same device key twice. -/
def cfgDup : Config := ⟨[keyA, keyA], "", "", "", false, none⟩

/-- The client `NewClient cfgDup 0` yields: the key set holds `keyA`
once, and the dirty flag is set because set and list sizes differ. -/
def cDup : Client :=
  ⟨⟨[keyA, keyA], "", "", "", true, some defaultToProwlLabel⟩, [keyA], true, false, 1000, 0⟩

/-- A configuration with one device key. -/
def cfgA : Config := ⟨[keyA], "", "", "app", false, none⟩

/-- The client `NewClient cfgA 0` yields. -/
def cA : Client :=
  ⟨⟨[keyA], "", "", "app", true, some defaultToProwlLabel⟩, [keyA], false, false, 1000, 0⟩

/-- `cA` with the sticky unauthorized flag set. -/
def cU : Client :=
  ⟨⟨[keyA], "", "", "app", true, some defaultToProwlLabel⟩, [keyA], false, true, 1000, 0⟩

/-- `cA` with the rate budget exhausted until time 10. -/
def cRL : Client :=
  ⟨⟨[keyA], "", "", "app", true, some defaultToProwlLabel⟩, [keyA], false, false, 0, 10⟩

/-- A 9998-character message body. -/
def longBody : String := ⟨List.replicate 9998 'd'⟩

/-- A 10-character URL. -/
def url10 : String := ⟨List.replicate 10 'u'⟩

/-- A response carrying only a 401 error element. -/
def w401 : RemoteResponse :=
  RemoteResponse.ok ⟨some ⟨401, "unauthorized"⟩, none, ⟨"", "", ""⟩⟩ none

/-- A response carrying only a retrieve element with a new device key. -/
def wRetrieveB : RemoteResponse := RemoteResponse.ok ⟨none, none, ⟨keyB, "", ""⟩⟩ none

/-- A response carrying both an error element (code 500) and a
well-formed success element (remaining 5, resetdate 77). -/
def wBoth : RemoteResponse :=
  RemoteResponse.ok ⟨some ⟨500, "server error"⟩, some ⟨200, 5, 77⟩, ⟨"", "", ""⟩⟩ none

/-- An empty successful response document, body closed cleanly. -/
def wEmpty : RemoteResponse := RemoteResponse.ok ⟨none, none, ⟨"", "", ""⟩⟩ none

/-- A response parsing cleanly with a success element (remaining 5,
resetdate 77) whose deferred body close then fails. -/
def wCloseFail : RemoteResponse :=
  RemoteResponse.ok ⟨none, some ⟨200, 5, 77⟩, ⟨"", "", ""⟩⟩ (some "connection reset")

/-! General lemmas about the trimming helpers. -/

/-- Trimming on the right does not lengthen a character list. -/
theorem trimRightChars_length_le (l : List Char) : (trimRightChars l).length ≤ l.length := by
  have h := (List.dropWhile_sublist (l := l.reverse) Char.isWhitespace).length_le
  simpa [trimRightChars] using h

/-- Trimming does not lengthen a string. -/
theorem trimSpace_length_le (s : String) : (trimSpace s).length ≤ s.length := by
  show (trimRightChars (trimLeftChars s.data)).length ≤ s.data.length
  calc (trimRightChars (trimLeftChars s.data)).length
      ≤ (trimLeftChars s.data).length := trimRightChars_length_le _
    _ ≤ s.data.length := (List.dropWhile_sublist _).length_le

/-- A right-trimmed list is an initial segment of the original list. -/
theorem trimRightChars_prefix_part (l : List Char) : ∃ u, l = trimRightChars l ++ u := by
  refine ⟨(l.reverse.takeWhile Char.isWhitespace).reverse, ?_⟩
  conv_lhs => rw [← l.reverse_reverse,
    ← List.takeWhile_append_dropWhile (p := Char.isWhitespace) (l := l.reverse)]
  rw [List.reverse_append]
  rfl

/-- When `dropWhile` fixes a list it also fixes each of its initial
segments. -/
theorem dropWhile_take (p : Char → Bool) (l : List Char) (n : Nat)
    (h : l.dropWhile p = l) : (l.take n).dropWhile p = l.take n := by
  cases l with
  | nil => simp
  | cons a l' =>
    cases n with
    | zero => simp
    | succ m =>
      rw [List.take_succ_cons]
      rw [List.dropWhile_cons] at h ⊢
      by_cases hp : p a = true
      · rw [if_pos hp] at h
        have hlen := (List.dropWhile_sublist (l := l') p).length_le
        have hlen2 := congrArg List.length h
        simp at hlen2
        exfalso
        omega
      · rw [if_neg hp]

/-- A list fixed by a full trim is fixed by the left trim alone. -/
theorem trimLeftChars_eq_self (d : List Char) (h : trimRightChars (trimLeftChars d) = d) :
    trimLeftChars d = d := by
  have h4 : (trimLeftChars d).length = d.length := by
    have h1 := (List.dropWhile_sublist (l := d) Char.isWhitespace).length_le
    have h2 := trimRightChars_length_le (trimLeftChars d)
    have h3 := congrArg List.length h
    simp only [trimLeftChars] at *
    omega
  cases d with
  | nil => rfl
  | cons a d' =>
    rw [trimLeftChars, List.dropWhile_cons]
    by_cases hp : Char.isWhitespace a = true
    · exfalso
      rw [trimLeftChars, List.dropWhile_cons, if_pos hp] at h4
      have h5 := (List.dropWhile_sublist (l := d') Char.isWhitespace).length_le
      simp at h4
      omega
    · rw [if_neg hp]

/-- For a trimmed string, trimming any truncation yields an initial
segment of the original string. -/
theorem trimSpace_take_prefix_part (s : String) (n : Nat) (h : trimSpace s = s) :
    ∃ u, s = trimSpace (takeStr s n) ++ u := by
  have hd : trimRightChars (trimLeftChars s.data) = s.data := congrArg String.data h
  have hleft : trimLeftChars s.data = s.data := trimLeftChars_eq_self s.data hd
  have htake : (s.data.take n).dropWhile Char.isWhitespace = s.data.take n :=
    dropWhile_take Char.isWhitespace s.data n hleft
  obtain ⟨u1, hu1⟩ := trimRightChars_prefix_part (s.data.take n)
  refine ⟨⟨u1 ++ s.data.drop n⟩, String.ext ?_⟩
  have hdata : (trimSpace (takeStr s n)).data = trimRightChars (s.data.take n) := by
    show trimRightChars (trimLeftChars (s.data.take n)) = trimRightChars (s.data.take n)
    rw [trimLeftChars, htake]
  rw [String.data_append, hdata]
  show s.data = trimRightChars (s.data.take n) ++ (u1 ++ s.data.drop n)
  conv_lhs => rw [← List.take_append_drop n s.data]
  rw [← List.append_assoc, ← hu1]

/-- `dropWhile` fixes a replication of a character failing the test. -/
theorem dropWhile_replicate (p : Char → Bool) (c : Char) (n : Nat) (h : p c = false) :
    (List.replicate n c).dropWhile p = List.replicate n c := by
  cases n with
  | zero => simp
  | succ m => simp [List.replicate_succ, List.dropWhile_cons, h]

/-- Trimming fixes a replication of a non-whitespace character. -/
theorem trimSpace_replicate (n : Nat) (c : Char) (h : c.isWhitespace = false) :
    trimSpace ⟨List.replicate n c⟩ = ⟨List.replicate n c⟩ := by
  show (⟨trimRightChars (trimLeftChars (List.replicate n c))⟩ : String) = _
  rw [trimLeftChars, dropWhile_replicate _ _ _ h, trimRightChars, List.reverse_replicate,
    dropWhile_replicate _ _ _ h, List.reverse_replicate]

/-! Lemmas about the key-set construction loop. -/

/-- `addKeys` fails exactly when some listed key has a length other
than 40. -/
theorem addKeys_error_iff (l : List String) : ∀ acc : List String,
    ((∃ e, addKeys acc l = Except.error e) ↔ ∃ k ∈ l, k.length ≠ 40) := by
  induction l with
  | nil => intro acc; simp [addKeys]
  | cons key rest ih =>
    intro acc
    by_cases hk : key.length ≠ 40
    · constructor
      · intro _
        exact ⟨key, by simp, hk⟩
      · intro _
        exact ⟨"api key must either be 40 chars long or undefined", by simp [addKeys, hk]⟩
    · rw [addKeys, if_neg hk]
      rw [ih]
      constructor
      · rintro ⟨k, hmem, hlen⟩
        exact ⟨k, by simp [hmem], hlen⟩
      · rintro ⟨k, hmem, hlen⟩
        rcases List.mem_cons.mp hmem with rfl | hmem2
        · exact absurd hlen hk
        · exact ⟨k, hmem2, hlen⟩

/-- `addKeys` succeeds on a list of 40-character keys. -/
theorem addKeys_ok_of_forall (l : List String) : ∀ acc : List String,
    (∀ k ∈ l, k.length = 40) → ∃ s, addKeys acc l = Except.ok s := by
  induction l with
  | nil => intro acc _; exact ⟨acc, rfl⟩
  | cons key rest ih =>
    intro acc h
    have hk : ¬key.length ≠ 40 := by simp [h key (by simp)]
    rw [addKeys, if_neg hk]
    exact ih _ (fun k hk2 => h k (by simp [hk2]))

/-- When `addKeys` succeeds, every listed key had length 40. -/
theorem addKeys_ok_len (l : List String) : ∀ acc s : List String,
    addKeys acc l = Except.ok s → ∀ k ∈ l, k.length = 40 := by
  induction l with
  | nil => intro acc s _; simp
  | cons key rest ih =>
    intro acc s h k hmem
    by_cases hk : key.length ≠ 40
    · rw [addKeys, if_pos hk] at h
      cases h
    · rw [addKeys, if_neg hk] at h
      rcases List.mem_cons.mp hmem with rfl | hmem2
      · omega
      · exact ih _ s h k hmem2

/-- The key set built by `addKeys` holds exactly the keys of the
accumulator and of the processed list. -/
theorem addKeys_ok_mem (l : List String) : ∀ acc s : List String,
    addKeys acc l = Except.ok s → ∀ k, (k ∈ s ↔ k ∈ acc ∨ k ∈ l) := by
  induction l with
  | nil =>
    intro acc s h k
    rw [addKeys] at h
    cases h
    simp
  | cons key rest ih =>
    intro acc s h k
    by_cases hk : key.length ≠ 40
    · rw [addKeys, if_pos hk] at h
      cases h
    · rw [addKeys, if_neg hk] at h
      have hmem := ih _ s h k
      by_cases hc : acc.contains key
      · rw [if_pos hc] at hmem
        rw [hmem]
        have hin : key ∈ acc := List.elem_iff.mp hc
        constructor
        · rintro (ha | hr)
          · exact Or.inl ha
          · exact Or.inr (by simp [hr])
        · rintro (ha | hr)
          · exact Or.inl ha
          · rcases List.mem_cons.mp hr with rfl | h2
            · exact Or.inl hin
            · exact Or.inr h2
      · rw [if_neg hc] at hmem
        rw [hmem]
        simp [List.mem_append]
        tauto

/-! Characterizations of the operations, shared by several claims. -/

/-- The explicit client a successful `NewClient` produces. -/
theorem newClient_ok_shape (cfg : Config) (now : Int) (keys : List String)
    (h1 : ¬(cfg.providerKey.length ≠ 40 ∧ cfg.providerKey.length ≠ 0))
    (h2 : ¬(cfg.token.length ≠ 40 ∧ cfg.token.length ≠ 0))
    (h3 : ¬(cfg.application.length > 256))
    (hak : addKeys [] cfg.apiKeys = Except.ok keys) :
    NewClient cfg now = Except.ok
      ⟨⟨cfg.apiKeys, cfg.providerKey, cfg.token, cfg.application, true,
          some (cfg.toProwlLabel.getD defaultToProwlLabel)⟩,
        keys, decide (keys.length ≠ cfg.apiKeys.length), false, 1000, now⟩ := by
  rw [NewClient, if_neg h1, if_neg h2, if_neg h3, hak]

/-- Once the local checks pass, `AddWithURL` issues exactly the request
`builtRequest` describes, whatever the network then does. -/
theorem addWithURL_request (clt : Client) (priority : Int)
    (event description withURL : String) (now : Int) (world : RemoteResponse)
    (hu : clt.unauthorized = false) (hk : clt.config.apiKeys.length ≠ 0)
    (hp : ¬(priority < -2 ∨ priority > 2)) (he : ¬(event.length > 1024))
    (hd : ¬(description.length > 10000)) (hw : ¬(withURL.length > 256))
    (hrl : ¬(clt.remaining ≤ 0 ∧ now < clt.reset)) :
    (AddWithURL clt priority event description withURL now world).request =
      some (builtRequest clt priority event description withURL) := by
  simp only [AddWithURL, hu, hk, hp, he, hd, hw, hrl]
  simp only [Bool.false_eq_true, if_false, ite_false]
  rcases hm : (handleResponse clt world).2 with e | resp
  · simp [hm]
  · rcases hs : resp.successElem with _ | s <;> simp [hm, hs]

/-- `handleResponse` never clears the sticky unauthorized flag. -/
theorem handleResponse_unauthorized_mono (clt : Client) (world : RemoteResponse)
    (h : clt.unauthorized = true) : (handleResponse clt world).1.unauthorized = true := by
  rcases world with m | m | m | resp
  · exact h
  · exact h
  · exact h
  · rcases he : resp.errorElem with _ | e
    · rcases hs : resp.successElem with _ | s <;> simp [handleResponse, he, hs, h]
    · by_cases hc : e.code = 401 <;> simp [handleResponse, he, hc, h]

/-- Whenever `AddWithURL` reports an error, either the exchange was a
clean parse with a success element followed by a failing body close (the
one path that refreshes the bookkeeping before erroring), or the client
state is preserved except possibly for the unauthorized flag, which
moves only on a 401 error element; and the returned count always mirrors
the stored one. -/
theorem addWithURL_error_frame (clt : Client) (priority : Int)
    (event description withURL : String) (now : Int) (world : RemoteResponse) :
    (AddWithURL clt priority event description withURL now world).remaining =
      (AddWithURL clt priority event description withURL now world).clt.remaining ∧
    ((AddWithURL clt priority event description withURL now world).error = none ∨
      closeFailAfterSuccess world = true ∨
      ((AddWithURL clt priority event description withURL now world).clt.remaining = clt.remaining ∧
       (AddWithURL clt priority event description withURL now world).clt.reset = clt.reset ∧
       (AddWithURL clt priority event description withURL now world).clt.config = clt.config ∧
       (AddWithURL clt priority event description withURL now world).clt.apiKeys = clt.apiKeys ∧
       (AddWithURL clt priority event description withURL now world).clt.apiKeysDirty =
         clt.apiKeysDirty ∧
       (is401 world = false →
         (AddWithURL clt priority event description withURL now world).clt.unauthorized =
           clt.unauthorized))) := by
  unfold AddWithURL
  split
  · exact ⟨rfl, Or.inr (Or.inr ⟨rfl, rfl, rfl, rfl, rfl, fun _ => rfl⟩)⟩
  split
  · exact ⟨rfl, Or.inr (Or.inr ⟨rfl, rfl, rfl, rfl, rfl, fun _ => rfl⟩)⟩
  split
  · exact ⟨rfl, Or.inr (Or.inr ⟨rfl, rfl, rfl, rfl, rfl, fun _ => rfl⟩)⟩
  split
  · exact ⟨rfl, Or.inr (Or.inr ⟨rfl, rfl, rfl, rfl, rfl, fun _ => rfl⟩)⟩
  split
  · exact ⟨rfl, Or.inr (Or.inr ⟨rfl, rfl, rfl, rfl, rfl, fun _ => rfl⟩)⟩
  split
  · exact ⟨rfl, Or.inr (Or.inr ⟨rfl, rfl, rfl, rfl, rfl, fun _ => rfl⟩)⟩
  split
  · exact ⟨rfl, Or.inr (Or.inr ⟨rfl, rfl, rfl, rfl, rfl, fun _ => rfl⟩)⟩
  rcases world with m | ⟨m, ce⟩ | ⟨m, ce⟩ | ⟨resp, ce⟩
  · exact ⟨rfl, Or.inr (Or.inr ⟨rfl, rfl, rfl, rfl, rfl, fun _ => rfl⟩)⟩
  · rcases ce with _ | c
    · exact ⟨rfl, Or.inr (Or.inr ⟨rfl, rfl, rfl, rfl, rfl, fun _ => rfl⟩)⟩
    · exact ⟨rfl, Or.inr (Or.inr ⟨rfl, rfl, rfl, rfl, rfl, fun _ => rfl⟩)⟩
  · rcases ce with _ | c
    · exact ⟨rfl, Or.inr (Or.inr ⟨rfl, rfl, rfl, rfl, rfl, fun _ => rfl⟩)⟩
    · exact ⟨rfl, Or.inr (Or.inr ⟨rfl, rfl, rfl, rfl, rfl, fun _ => rfl⟩)⟩
  · rcases resp with ⟨he, hs, hret⟩
    rcases he with _ | e
    · rcases hs with _ | s
      · rcases ce with _ | c
        · exact ⟨rfl, Or.inl rfl⟩
        · exact ⟨rfl, Or.inr (Or.inr ⟨rfl, rfl, rfl, rfl, rfl, fun _ => rfl⟩)⟩
      · rcases ce with _ | c
        · exact ⟨rfl, Or.inl rfl⟩
        · exact ⟨rfl, Or.inr (Or.inl rfl)⟩
    · rcases ce with _ | c <;> by_cases hc : e.code = 401
      · simp only [handleResponse, is401, closeWrap, hc]
        simp
      · simp only [handleResponse, is401, closeWrap, hc]
        simp [hc]
      · simp only [handleResponse, is401, closeWrap, hc]
        simp
      · simp only [handleResponse, is401, closeWrap, hc]
        simp [hc]

/-! The claims. -/

/-- C1: the claim states that a structured error response (including a
401) received by `Verify` leaves the sticky unauthorized flag unchanged.
The code funnels every call through `handleResponse`, which sets the
flag on any 401 error element, so a verify call on a freshly constructed
client flips the flag to true — the flagged divergence the source admits
in the comment beside the 401 branch. -/
theorem c1_verify_401_sets_sticky_flag :
    NewClient cfg0 0 = Except.ok c0 ∧
    c0.unauthorized = false ∧
    keyA.length = 40 ∧
    (Verify c0 keyA w401).error.isSome = true ∧
    (Verify c0 keyA w401).clt.unauthorized = true :=
  ⟨rfl, rfl, rfl, rfl, rfl⟩

/-- C2: the claim states that a successful `RetrieveAPIKey` adds the
returned credential to the key set. The code executes
`clt.apiKeys[apiKey] = true` on the still-zero named return value, so it
inserts the empty string: the returned 40-character key is absent from
the set afterwards. -/
theorem c2_retrieve_apikey_adds_empty_string :
    NewClient cfgPT 0 = Except.ok cPT ∧
    (RetrieveAPIKey cPT wRetrieveB).error = none ∧
    (RetrieveAPIKey cPT wRetrieveB).apiKey = keyB ∧
    (RetrieveAPIKey cPT wRetrieveB).clt.apiKeys = [""] ∧
    (RetrieveAPIKey cPT wRetrieveB).clt.apiKeys.contains keyB = false :=
  ⟨rfl, rfl, rfl, rfl, rfl⟩

/-- C3 counterexample: a parsed document carrying both an error element
and a well-formed success element (remaining 5, resetdate 77) leaves
`remaining`/`reset` untouched, because `handleResponse` returns early on
the error element — refuting the claim that the bookkeeping is updated
even alongside an error. -/
theorem c3_error_blocks_success_update :
    (handleResponse c0 wBoth).1.remaining = 1000 ∧
    (handleResponse c0 wBoth).1.reset = 0 ∧
    ¬((handleResponse c0 wBoth).1.remaining = 5 ∧ (handleResponse c0 wBoth).1.reset = 77) := by
  refine ⟨rfl, rfl, ?_⟩
  decide

/-- C3 (amended): for every caller of `handleResponse`, the rate-limit
bookkeeping is refreshed from a well-formed success element exactly when
no error element is present; with an error element alongside, the fields
are left unchanged. -/
theorem c3_success_updates_bookkeeping (clt : Client) (resp : ParsedResponse)
    (ce : Option String) :
    (∀ s, resp.errorElem = none → resp.successElem = some s →
      (handleResponse clt (RemoteResponse.ok resp ce)).1.remaining = s.remaining ∧
      (handleResponse clt (RemoteResponse.ok resp ce)).1.reset = s.resetdate) ∧
    (∀ e, resp.errorElem = some e →
      (handleResponse clt (RemoteResponse.ok resp ce)).1.remaining = clt.remaining ∧
      (handleResponse clt (RemoteResponse.ok resp ce)).1.reset = clt.reset) := by
  constructor
  · intro s he hs
    simp [handleResponse, he, hs]
  · intro e he
    by_cases hc : e.code = 401 <;> simp [handleResponse, he, hc]

/-- Witness for the amended C3 at a concrete success-only response. -/
theorem c3_success_updates_bookkeeping_witness :
    (handleResponse c0
      (RemoteResponse.ok ⟨none, some ⟨200, 7, 99⟩, ⟨"", "", ""⟩⟩ none)).1.remaining = 7 ∧
    (handleResponse c0
      (RemoteResponse.ok ⟨none, some ⟨200, 7, 99⟩, ⟨"", "", ""⟩⟩ none)).1.reset = 99 :=
  (c3_success_updates_bookkeeping c0 ⟨none, some ⟨200, 7, 99⟩, ⟨"", "", ""⟩⟩ none).1
    ⟨200, 7, 99⟩ rfl rfl

/-- C4: for trimmed body and non-empty trimmed URL passing the
individual length checks, when `len(body) + len(url) + 4 > 10000` the
transmitted description is an initial segment of the body of at most
`10000 - len(url) - 4` characters, followed by the ellipsis marker, one
space and the full URL, and its total length stays within 10000. -/
theorem c4_body_truncation (clt : Client) (priority : Int)
    (event description withURL : String) (now : Int) (world : RemoteResponse)
    (hu : clt.unauthorized = false) (hk : clt.config.apiKeys.length ≠ 0)
    (hp : ¬(priority < -2 ∨ priority > 2)) (he : ¬(event.length > 1024))
    (hd : ¬(description.length > 10000)) (hw : ¬(withURL.length > 256))
    (hrl : ¬(clt.remaining ≤ 0 ∧ now < clt.reset))
    (htd : trimSpace description = description) (htu : trimSpace withURL = withURL)
    (hne : withURL ≠ "") (hbig : 10000 < description.length + withURL.length + 4) :
    ∃ req, (AddWithURL clt priority event description withURL now world).request = some req ∧
      ∃ t u, description = t ++ u ∧ t.length ≤ 10000 - withURL.length - 4 ∧
        req.description = t ++ "..." ++ " " ++ withURL ∧
        req.description.length ≤ 10000 := by
  have hreq := addWithURL_request clt priority event description withURL now world
    hu hk hp he hd hw hrl
  refine ⟨builtRequest clt priority event description withURL, hreq, ?_⟩
  have hpos : 0 < withURL.length := by
    rcases Nat.eq_zero_or_pos withURL.length with h0 | h0
    · exact absurd (String.ext (List.length_eq_zero.mp h0)) hne
    · exact h0
  set N := 10000 - withURL.length - 4 with hN
  set t := trimSpace (takeStr description N) with ht
  obtain ⟨u, hu2⟩ := trimSpace_take_prefix_part description N htd
  have htlen : t.length ≤ N := by
    have h1 := trimSpace_length_le (takeStr description N)
    have h2 : (takeStr description N).length ≤ N := by
      show (description.data.take N).length ≤ N
      simp [List.length_take]
    rw [← ht] at h1
    omega
  have hdescr : (builtRequest clt priority event description withURL).description =
      t ++ "..." ++ " " ++ withURL := by
    show composeDescription (trimSpace description) (trimSpace withURL) = _
    rw [htd, htu, composeDescription, if_pos hpos, if_pos hbig]
  refine ⟨t, u, hu2, htlen, hdescr, ?_⟩
  rw [hdescr]
  have h3 : ("..." : String).length = 3 := rfl
  have h4 : (" " : String).length = 1 := rfl
  simp only [String.length_append, h3, h4]
  omega

/-- Witness for C4: a 9998-character body with a 10-character URL. -/
theorem c4_body_truncation_witness :
    (cA.unauthorized = false ∧ cA.config.apiKeys.length ≠ 0 ∧
      trimSpace longBody = longBody ∧ trimSpace url10 = url10 ∧ url10 ≠ "" ∧
      10000 < longBody.length + url10.length + 4) ∧
    (∃ req, (AddWithURL cA 0 "e" longBody url10 0 wEmpty).request = some req ∧
      ∃ t u, longBody = t ++ u ∧ t.length ≤ 10000 - url10.length - 4 ∧
        req.description = t ++ "..." ++ " " ++ url10 ∧
        req.description.length ≤ 10000) := by
  have hlb : longBody.length = 9998 := by
    show (List.replicate 9998 'd').length = 9998
    rw [List.length_replicate]
  have hul : url10.length = 10 := by
    show (List.replicate 10 'u').length = 10
    rw [List.length_replicate]
  have htd : trimSpace longBody = longBody := trimSpace_replicate 9998 'd' rfl
  have htu : trimSpace url10 = url10 := trimSpace_replicate 10 'u' rfl
  have hne : url10 ≠ "" := by
    intro hcon
    have h2 := congrArg String.length hcon
    rw [hul] at h2
    simp at h2
  have hbig : 10000 < longBody.length + url10.length + 4 := by omega
  refine ⟨⟨rfl, by decide, htd, htu, hne, hbig⟩, ?_⟩
  exact c4_body_truncation cA 0 "e" longBody url10 0 wEmpty rfl (by decide) (by decide)
    (by decide) (by omega) (by omega) (by decide) htd htu hne hbig

/-- C5: once the sticky unauthorized flag is true, every dispatch fails
immediately with an error, issues no network request and leaves the
client untouched; and no operation of the client ever resets the flag to
false. -/
theorem c5_sticky_unauthorized (clt : Client) (priority : Int)
    (event description withURL apiKey : String) (now : Int)
    (w1 w2 w3 w4 : RemoteResponse) (h : clt.unauthorized = true) :
    (AddWithURL clt priority event description withURL now w1).error.isSome = true ∧
    (AddWithURL clt priority event description withURL now w1).request = none ∧
    (AddWithURL clt priority event description withURL now w1).clt = clt ∧
    (Verify clt apiKey w2).clt.unauthorized = true ∧
    (RetrieveToken clt w3).clt.unauthorized = true ∧
    (RetrieveAPIKey clt w4).clt.unauthorized = true ∧
    (Client.Config clt).1.unauthorized = true := by
  refine ⟨?_, ?_, ?_, ?_, ?_, ?_, ?_⟩
  · simp [AddWithURL, h]
  · simp [AddWithURL, h]
  · simp [AddWithURL, h]
  · rw [Verify]
    split
    · exact h
    · rcases hm : (handleResponse clt w2).2 with e | resp <;>
        simp [hm, handleResponse_unauthorized_mono clt w2 h]
  · rw [RetrieveToken]
    split
    · exact h
    · rcases hm : (handleResponse clt w3).2 with e | resp <;>
        simp [hm, handleResponse_unauthorized_mono clt w3 h]
  · rw [RetrieveAPIKey]
    split
    · exact h
    · split
      · exact h
      · rcases hm : (handleResponse clt w4).2 with e | resp <;>
          simp [hm, handleResponse_unauthorized_mono clt w4 h]
  · rw [Client.Config]
    split <;> exact h

/-- Witness for C5 at a concrete unauthorized client. -/
theorem c5_sticky_unauthorized_witness :
    cU.unauthorized = true ∧
    ((AddWithURL cU 0 "e" "d" "u" 0 wEmpty).error.isSome = true ∧
      (AddWithURL cU 0 "e" "d" "u" 0 wEmpty).request = none ∧
      (AddWithURL cU 0 "e" "d" "u" 0 wEmpty).clt = cU ∧
      (Verify cU keyA w401).clt.unauthorized = true ∧
      (RetrieveToken cU wEmpty).clt.unauthorized = true ∧
      (RetrieveAPIKey cU wEmpty).clt.unauthorized = true ∧
      (Client.Config cU).1.unauthorized = true) :=
  ⟨rfl, c5_sticky_unauthorized cU 0 "e" "d" "u" keyA 0 wEmpty w401 wEmpty wEmpty rfl⟩

/-- C6: the claim states that the apikey form field joins the device
keys with single commas, with no trailing separator, however the
configured list was populated. The joining loop compares its index
against the configured list length instead of the set size, so a
configuration listing the same key twice produces a trailing comma. -/
theorem c6_duplicate_config_gives_trailing_comma :
    NewClient cfgDup 0 = Except.ok cDup ∧
    makeAPIKeyRequestArgument cDup = keyA ++ "," ∧
    makeAPIKeyRequestArgument cDup ≠ keyA ∧
    (AddWithURL cDup 0 "event" "desc" "" 5 wEmpty).request.map AddRequest.apikey =
      some (keyA ++ ",") := by
  refine ⟨rfl, rfl, ?_, rfl⟩
  decide

/-- C7: `NewClient` fails exactly when the provider key is present with
length other than 40, the token is present with length other than 40,
the application name exceeds 256 characters, or some configured device
key has length other than 40; on success the client is fully
initialized: logger set, notify label defaulted, configuration carried
over, flag cleared, optimistic budget of 1000, reset time set to now. -/
theorem c7_newclient_validation (config : Config) (now : Int) :
    ((∃ e, NewClient config now = Except.error e) ↔
      (config.providerKey.length ≠ 40 ∧ config.providerKey.length ≠ 0) ∨
      (config.token.length ≠ 40 ∧ config.token.length ≠ 0) ∨
      256 < config.application.length ∨
      (∃ k ∈ config.apiKeys, k.length ≠ 40)) ∧
    (∀ clt, NewClient config now = Except.ok clt →
      clt.config.loggerSet = true ∧
      clt.config.toProwlLabel = some (config.toProwlLabel.getD defaultToProwlLabel) ∧
      clt.config.apiKeys = config.apiKeys ∧
      clt.config.providerKey = config.providerKey ∧
      clt.config.token = config.token ∧
      clt.config.application = config.application ∧
      clt.unauthorized = false ∧ clt.remaining = 1000 ∧ clt.reset = now) := by
  by_cases h1 : config.providerKey.length ≠ 40 ∧ config.providerKey.length ≠ 0
  · refine ⟨?_, ?_⟩
    · rw [NewClient, if_pos h1]
      exact ⟨fun _ => Or.inl h1, fun _ => ⟨_, rfl⟩⟩
    · intro clt hclt
      rw [NewClient, if_pos h1] at hclt
      cases hclt
  · by_cases h2 : config.token.length ≠ 40 ∧ config.token.length ≠ 0
    · refine ⟨?_, ?_⟩
      · rw [NewClient, if_neg h1, if_pos h2]
        exact ⟨fun _ => Or.inr (Or.inl h2), fun _ => ⟨_, rfl⟩⟩
      · intro clt hclt
        rw [NewClient, if_neg h1, if_pos h2] at hclt
        cases hclt
    · by_cases h3 : config.application.length > 256
      · refine ⟨?_, ?_⟩
        · rw [NewClient, if_neg h1, if_neg h2, if_pos h3]
          exact ⟨fun _ => Or.inr (Or.inr (Or.inl h3)), fun _ => ⟨_, rfl⟩⟩
        · intro clt hclt
          rw [NewClient, if_neg h1, if_neg h2, if_pos h3] at hclt
          cases hclt
      · rcases hak : addKeys [] config.apiKeys with e | keys
        · refine ⟨?_, ?_⟩
          · rw [NewClient, if_neg h1, if_neg h2, if_neg h3, hak]
            constructor
            · intro _
              exact Or.inr (Or.inr (Or.inr ((addKeys_error_iff config.apiKeys []).mp ⟨e, hak⟩)))
            · intro _
              exact ⟨e, rfl⟩
          · intro clt hclt
            rw [NewClient, if_neg h1, if_neg h2, if_neg h3, hak] at hclt
            cases hclt
        · refine ⟨?_, ?_⟩
          · rw [NewClient, if_neg h1, if_neg h2, if_neg h3, hak]
            constructor
            · rintro ⟨e, he⟩
              cases he
            · rintro (h | h | h | h)
              · exact absurd h h1
              · exact absurd h h2
              · exact absurd h h3
              · exfalso
                obtain ⟨e, he⟩ := (addKeys_error_iff config.apiKeys []).mpr h
                rw [hak] at he
                cases he
          · intro clt hclt
            rw [NewClient, if_neg h1, if_neg h2, if_neg h3, hak] at hclt
            injection hclt with h
            subst h
            exact ⟨rfl, rfl, rfl, rfl, rfl, rfl, rfl, rfl, rfl⟩

/-- Witness for C7 at a concrete valid configuration. -/
theorem c7_newclient_validation_witness :
    NewClient cfgA 0 = Except.ok cA ∧
    (cA.config.loggerSet = true ∧
      cA.config.toProwlLabel = some (cfgA.toProwlLabel.getD defaultToProwlLabel) ∧
      cA.config.apiKeys = cfgA.apiKeys ∧
      cA.config.providerKey = cfgA.providerKey ∧
      cA.config.token = cfgA.token ∧
      cA.config.application = cfgA.application ∧
      cA.unauthorized = false ∧ cA.remaining = 1000 ∧ cA.reset = 0) :=
  ⟨rfl, (c7_newclient_validation cfgA 0).2 cA rfl⟩

/-- C8: with all earlier checks passing, a dispatch issued while the
stored budget is exhausted and the reset time lies ahead fails locally
with an error, no request and no state change; when the budget is
positive or the reset time has passed, the rate-limit check does not
block and the request goes out. -/
theorem c8_rate_limit_gate (clt : Client) (priority : Int)
    (event description withURL : String) (now : Int) (world : RemoteResponse)
    (hu : clt.unauthorized = false) (hk : clt.config.apiKeys.length ≠ 0)
    (hp : ¬(priority < -2 ∨ priority > 2)) (he : ¬(event.length > 1024))
    (hd : ¬(description.length > 10000)) (hw : ¬(withURL.length > 256)) :
    (clt.remaining ≤ 0 ∧ now < clt.reset →
      (AddWithURL clt priority event description withURL now world).error.isSome = true ∧
      (AddWithURL clt priority event description withURL now world).request = none ∧
      (AddWithURL clt priority event description withURL now world).clt = clt) ∧
    (¬(clt.remaining ≤ 0 ∧ now < clt.reset) →
      (AddWithURL clt priority event description withURL now world).request.isSome = true) := by
  constructor
  · intro hrl
    refine ⟨?_, ?_, ?_⟩ <;> simp [AddWithURL, hu, hk, hp, he, hd, hw, hrl]
  · intro hrl
    rw [addWithURL_request clt priority event description withURL now world hu hk hp he hd hw hrl]
    rfl

/-- Witness for C8: a blocked client (budget 0, reset at 10, now 0) and
an unblocked one. -/
theorem c8_rate_limit_gate_witness :
    (cRL.remaining ≤ 0 ∧ (0 : Int) < cRL.reset) ∧
    ((AddWithURL cRL 0 "e" "d" "" 0 wEmpty).error.isSome = true ∧
      (AddWithURL cRL 0 "e" "d" "" 0 wEmpty).request = none ∧
      (AddWithURL cRL 0 "e" "d" "" 0 wEmpty).clt = cRL) ∧
    (AddWithURL cA 0 "e" "d" "" 0 wEmpty).request.isSome = true :=
  ⟨by decide,
    (c8_rate_limit_gate cRL 0 "e" "d" "" 0 wEmpty rfl (by decide) (by decide) (by decide)
      (by decide) (by decide)).1 (by decide),
    (c8_rate_limit_gate cA 0 "e" "d" "" 0 wEmpty rfl (by decide) (by decide) (by decide)
      (by decide) (by decide)).2 (by decide)⟩

/-- C9: exporting the configuration of a validly constructed client and
constructing a new client from it succeeds and yields the same device
key set (as a set), provider key and application name. -/
theorem c9_config_roundtrip (config : Config) (now now2 : Int) (clt : Client)
    (h : NewClient config now = Except.ok clt) :
    ∃ clt2, NewClient (Client.Config clt).2 now2 = Except.ok clt2 ∧
      (∀ k, k ∈ clt2.apiKeys ↔ k ∈ clt.apiKeys) ∧
      clt2.config.providerKey = clt.config.providerKey ∧
      clt2.config.application = clt.config.application := by
  rw [NewClient] at h
  by_cases h1 : config.providerKey.length ≠ 40 ∧ config.providerKey.length ≠ 0
  · rw [if_pos h1] at h; cases h
  rw [if_neg h1] at h
  by_cases h2 : config.token.length ≠ 40 ∧ config.token.length ≠ 0
  · rw [if_pos h2] at h; cases h
  rw [if_neg h2] at h
  by_cases h3 : config.application.length > 256
  · rw [if_pos h3] at h; cases h
  rw [if_neg h3] at h
  rcases hak : addKeys [] config.apiKeys with e | keys
  · rw [hak] at h; cases h
  rw [hak] at h
  injection h with h
  subst h
  have hlen40 : ∀ k ∈ config.apiKeys, k.length = 40 := addKeys_ok_len config.apiKeys [] keys hak
  have hmemk : ∀ k, k ∈ keys ↔ k ∈ config.apiKeys := by
    intro k
    rw [addKeys_ok_mem config.apiKeys [] keys hak k]
    simp
  have hlenkeys : ∀ k ∈ keys, k.length = 40 := fun k hk => hlen40 k ((hmemk k).mp hk)
  rw [Client.Config]
  by_cases hdirty : (decide (keys.length ≠ config.apiKeys.length) : Bool) = true
  · rw [if_pos hdirty]
    obtain ⟨keys2, hk2⟩ := addKeys_ok_of_forall keys [] hlenkeys
    refine ⟨_, newClient_ok_shape _ now2 keys2 h1 h2 h3 hk2, ?_, rfl, rfl⟩
    intro k
    rw [addKeys_ok_mem keys [] keys2 hk2 k]
    simp
  · rw [if_neg hdirty]
    obtain ⟨keys2, hk2⟩ := addKeys_ok_of_forall config.apiKeys [] hlen40
    refine ⟨_, newClient_ok_shape _ now2 keys2 h1 h2 h3 hk2, ?_, rfl, rfl⟩
    intro k
    rw [addKeys_ok_mem config.apiKeys [] keys2 hk2 k]
    simp [hmemk k]

/-- Witness for C9 at a configuration with a duplicated key (the dirty
export path). -/
theorem c9_config_roundtrip_witness :
    NewClient cfgDup 0 = Except.ok cDup ∧
    (∃ clt2, NewClient (Client.Config cDup).2 1 = Except.ok clt2 ∧
      (∀ k, k ∈ clt2.apiKeys ↔ k ∈ cDup.apiKeys) ∧
      clt2.config.providerKey = cDup.config.providerKey ∧
      clt2.config.application = cDup.config.application) :=
  ⟨rfl, c9_config_roundtrip cfgDup 0 1 cDup rfl⟩

/-- C10 counterexample: a call whose response parses cleanly with a
success element (remaining 5, resetdate 77) but whose deferred body
close fails returns a non-nil error while the stored `callsRemaining`
and `resetAt` have already been refreshed from the success element —
refuting the claim that every error-returning call leaves the fields
exactly as they were. -/
theorem c10_close_failure_refreshes_bookkeeping :
    (AddWithURL cA 0 "e" "d" "" 0 wCloseFail).error.isSome = true ∧
    cA.remaining = 1000 ∧ cA.reset = 0 ∧
    (AddWithURL cA 0 "e" "d" "" 0 wCloseFail).clt.remaining = 5 ∧
    (AddWithURL cA 0 "e" "d" "" 0 wCloseFail).clt.reset = 77 ∧
    ¬((AddWithURL cA 0 "e" "d" "" 0 wCloseFail).clt.remaining = cA.remaining ∧
      (AddWithURL cA 0 "e" "d" "" 0 wCloseFail).clt.reset = cA.reset) := by
  refine ⟨rfl, rfl, rfl, rfl, rfl, ?_⟩
  decide

/-- C10 (amended): whenever `AddWithURL` returns an error, the returned
remaining count equals the stored one at return; and whenever the error
stems from a local precondition failure, a transport failure, a read or
decode failure, or a remote error element — that is, any path other than
a body-close failure after a clean parse carrying a success element —
the rate-limit bookkeeping and the rest of the client state are exactly
as before the call, and the unauthorized flag can have moved only on a
401 error element. -/
theorem c10_error_preserves_bookkeeping (clt : Client) (priority : Int)
    (event description withURL : String) (now : Int) (world : RemoteResponse) (e : String)
    (h : (AddWithURL clt priority event description withURL now world).error = some e)
    (hcf : closeFailAfterSuccess world = false) :
    (AddWithURL clt priority event description withURL now world).remaining =
      (AddWithURL clt priority event description withURL now world).clt.remaining ∧
    (AddWithURL clt priority event description withURL now world).remaining = clt.remaining ∧
    (AddWithURL clt priority event description withURL now world).clt.remaining = clt.remaining ∧
    (AddWithURL clt priority event description withURL now world).clt.reset = clt.reset ∧
    (AddWithURL clt priority event description withURL now world).clt.config = clt.config ∧
    (AddWithURL clt priority event description withURL now world).clt.apiKeys = clt.apiKeys ∧
    (AddWithURL clt priority event description withURL now world).clt.apiKeysDirty =
      clt.apiKeysDirty ∧
    (is401 world = false →
      (AddWithURL clt priority event description withURL now world).clt.unauthorized =
        clt.unauthorized) := by
  obtain ⟨h1, h2⟩ := addWithURL_error_frame clt priority event description withURL now world
  rcases h2 with h2 | h2 | h2
  · rw [h] at h2
    cases h2
  · rw [hcf] at h2
    cases h2
  · exact ⟨h1, by rw [h1, h2.1], h2.1, h2.2.1, h2.2.2.1, h2.2.2.2.1, h2.2.2.2.2.1,
      h2.2.2.2.2.2⟩

/-- Witness for the amended C10 at a concrete failing call (no
configured keys, body closed cleanly). -/
theorem c10_error_preserves_bookkeeping_witness :
    ((AddWithURL c0 0 "e" "d" "" 0 wEmpty).error =
        some "a valid api key is required for add operation" ∧
      closeFailAfterSuccess wEmpty = false) ∧
    ((AddWithURL c0 0 "e" "d" "" 0 wEmpty).remaining =
        (AddWithURL c0 0 "e" "d" "" 0 wEmpty).clt.remaining ∧
      (AddWithURL c0 0 "e" "d" "" 0 wEmpty).remaining = c0.remaining ∧
      (AddWithURL c0 0 "e" "d" "" 0 wEmpty).clt.remaining = c0.remaining ∧
      (AddWithURL c0 0 "e" "d" "" 0 wEmpty).clt.reset = c0.reset ∧
      (AddWithURL c0 0 "e" "d" "" 0 wEmpty).clt.config = c0.config ∧
      (AddWithURL c0 0 "e" "d" "" 0 wEmpty).clt.apiKeys = c0.apiKeys ∧
      (AddWithURL c0 0 "e" "d" "" 0 wEmpty).clt.apiKeysDirty = c0.apiKeysDirty ∧
      (is401 wEmpty = false →
        (AddWithURL c0 0 "e" "d" "" 0 wEmpty).clt.unauthorized = c0.unauthorized)) :=
  ⟨⟨rfl, rfl⟩, c10_error_preserves_bookkeeping c0 0 "e" "d" "" 0 wEmpty
    "a valid api key is required for add operation" rfl rfl⟩

end Prowlgo
